import Mathlib

/-!
# Verification of the DataProcessor tabular toolkit

Shallow embedding of `src/data_processor.py` (class `DataProcessor`): an
in-memory columnar table with null tracking, plus the operations
`load_data`, `clean_data`, `filter_by_value`, `calculate_mean`, `find_max`
and `get_summary_stats`.  Cells are `Option Value` (`none` = null, the
pandas `NaN`/`None` marker); numeric values are idealised as rationals.
Errors are modelled by an explicit `Err` type whose constructors follow the
conditions the Python code detects (each `raise` site maps to one
constructor).  Operations that mutate the processor return the post-state
even on failure, since a Python exception leaves prior mutations in place.
-/

namespace DataProc

/-- Column dtypes, as the spec's tagged variant; `unknown` covers
non-numeric, non-string, non-bool dtypes. -/
inductive Dtype
  | integer
  | float
  | boolean
  | string
  | unknown
  deriving DecidableEq, Repr

/-- Numeric dtype test `np.issubdtype(dtype, np.number)`: true exactly for integer and float
dtypes (numpy bools and objects are not numbers). -/
def Dtype.isNumeric : Dtype → Bool
  | .integer => true
  | .float => true
  | _ => false

/-- A cell value.  Floats are idealised as rationals (`NaN` never appears
here: in pandas numeric columns the null marker is `NaN`, which we model as
the `none` cell). -/
inductive Value
  | int (i : Int)
  | float (q : ℚ)
  | bool (b : Bool)
  | str (s : String)
  deriving DecidableEq, Repr

/-- The numeric reading of a value, when it has one.  Python bools compare
numerically (`True == 1`); strings have none. -/
def Value.asNum : Value → Option ℚ
  | .int i => some (i : ℚ)
  | .float q => some q
  | .bool b => some (if b then 1 else 0)
  | .str _ => none

/-- Coercion `float(x)` as applied by the source to values taken from numeric
columns. -/
def Value.toRat : Value → ℚ
  | .int i => (i : ℚ)
  | .float q => q
  | .bool b => if b then 1 else 0
  | .str _ => 0

/-- Elementwise `==` of pandas/Python on cell values: numeric-like values
compare numerically, strings compare exactly, and a string never equals a
numeric-like value. -/
def valueEq (a b : Value) : Bool :=
  match a.asNum, b.asNum with
  | some x, some y => x == y
  | _, _ =>
    match a, b with
    | .str s, .str t => s == t
    | _, _ => false

/-- Does a cell match a probe value?  A null cell never matches. -/
def cellMatches (v : Value) : Option Value → Bool
  | none => false
  | some w => valueEq w v

/-- A named, typed column: `cells` holds one `Option Value` per row
(`none` = null). -/
structure Column where
  name : String
  dtype : Dtype
  cells : List (Option Value)
  deriving DecidableEq, Repr

/-- A table is its ordered list of columns (names unique in well-formed
tables). -/
structure Table where
  cols : List Column
  deriving DecidableEq, Repr

/-- Row count `len(df)`: the number of rows; zero for a table with no columns. -/
def Table.rowCount (t : Table) : Nat :=
  match t.cols with
  | [] => 0
  | c :: _ => c.cells.length

/-- Well-formedness: every column has exactly `rowCount` cells. -/
def Table.WF (t : Table) : Prop :=
  ∀ c ∈ t.cols, c.cells.length = t.rowCount

/-- Column names `list(df.columns)`. -/
def Table.colNames (t : Table) : List String :=
  t.cols.map (·.name)

/-- Look up a column by name (`df[col]`, guarded by
`col in df.columns`). -/
def getCol (t : Table) (col : String) : Option Column :=
  t.cols.find? (fun c => c.name == col)

/-- Dtype map `{col: str(df[col].dtype) for col in df.columns}`. -/
def typesOf (t : Table) : List (String × Dtype) :=
  t.cols.map (fun c => (c.name, c.dtype))

/-- The error taxonomy: one constructor per distinct `raise` condition in
the source.  `columnNotFound` carries the available column names exactly
when the raising message does (only `filter_by_value` includes them);
`notNumeric` carries the cached dtype exactly as the message's
`self.column_types.get(column, 'unknown')` lookup does. -/
inductive Err
  | noDataLoaded
  | fileNotFound (path : String)
  | emptyInput
  | invalidInput (msg : String)
  | columnNotFound (column : String) (available : Option (List String))
  | notNumeric (column : String) (cached : Option Dtype)
  | allNull (column : String)
  | noValidValues (column : String)
  | zeroDivision
  deriving DecidableEq, Repr

/-- The `DataProcessor` state: `data` (a loaded table or `None`) and the
`column_types` cache. -/
structure DataProcessor where
  data : Option Table
  columnTypes : List (String × Dtype)
  deriving DecidableEq, Repr

/-- Constructor `DataProcessor.__init__`: no data, empty type cache. -/
def initProcessor : DataProcessor := ⟨none, []⟩

/-- Method `DataProcessor.precompute_column_types`: rebuild the dtype cache from
the current data, a no-op when no data is loaded. -/
def precomputeColumnTypes (s : DataProcessor) : DataProcessor :=
  match s.data with
  | none => s
  | some t => { s with columnTypes := typesOf t }

/-- The outcome of the external CSV parser collaborator (`pd.read_csv`):
a parsed table, or one of its failure modes. -/
inductive ParseResult
  | ok (t : Table)
  | fileNotFound (path : String)
  | emptyData
  | otherError (msg : String)
  deriving DecidableEq, Repr

/-- Method `DataProcessor.load_data`: on parser success, store the table,
recompute the dtype cache and return `True`; map each parser failure to
its error, leaving the state untouched. -/
def load_data (s : DataProcessor) (src : ParseResult) :
    DataProcessor × Except Err Bool :=
  match src with
  | .ok t => (precomputeColumnTypes { s with data := some t }, .ok true)
  | .fileNotFound p => (s, .error (.fileNotFound p))
  | .emptyData => (s, .error .emptyInput)
  | .otherError m => (s, .error (.invalidInput m))

/-- Keep the entries of a list whose mask bit is true (boolean-mask row
selection, order-preserving). -/
def maskFilter : List Bool → List α → List α
  | true :: bs, x :: xs => x :: maskFilter bs xs
  | false :: bs, _ :: xs => maskFilter bs xs
  | _, _ => []

/-- Pointwise conjunction of two masks. -/
def zipAnd (a b : List Bool) : List Bool := List.zipWith and a b

/-- The `dropna` keep-mask: a row survives iff no column is null there. -/
def Table.keepMask (t : Table) : List Bool :=
  t.cols.foldl (fun m c => zipAnd m (c.cells.map Option.isSome))
    (List.replicate t.rowCount true)

/-- Pandas `df.dropna()`: drop every row where any column is null. -/
def Table.dropna (t : Table) : Table :=
  ⟨t.cols.map (fun c => { c with cells := maskFilter t.keepMask c.cells })⟩

/-- Method `DataProcessor.clean_data`.  Faithful to the statement order of the
source: `self.data` is reassigned to the dropped frame *before* the
progress message computes `removed_count/initial_size*100`, which raises
`ZeroDivisionError` when the table had zero rows; only after that message
is the dtype cache recomputed and the final size returned. -/
def clean_data (s : DataProcessor) : DataProcessor × Except Err Nat :=
  match s.data with
  | none => (s, .error .noDataLoaded)
  | some t =>
    let initial := t.rowCount
    let t' := t.dropna
    let s' : DataProcessor := { s with data := some t' }
    if initial = 0 then (s', .error .zeroDivision)
    else (precomputeColumnTypes s', .ok t'.rowCount)

/-- Method `DataProcessor.filter_by_value`: build the boolean mask
`df[column] == value` (nulls compare false) and keep the masked rows of
every column; the dtype cache is not recomputed. -/
def filter_by_value (s : DataProcessor) (col : String) (v : Value) :
    DataProcessor × Except Err Nat :=
  match s.data with
  | none => (s, .error .noDataLoaded)
  | some t =>
    match getCol t col with
    | none => (s, .error (.columnNotFound col (some t.colNames)))
    | some c =>
      let mask := c.cells.map (cellMatches v)
      let t' : Table := ⟨t.cols.map (fun c0 => { c0 with cells := maskFilter mask c0.cells })⟩
      ({ s with data := some t' }, .ok t'.rowCount)

/-- Maximum of a list of rationals (`Series.max` after `dropna`); the `[]`
case is unreachable in the source, which guards it behind the all-null
check. -/
def qmax : List ℚ → ℚ
  | [] => 0
  | x :: xs => xs.foldl max x

/-- Minimum of a list of rationals (`Series.min`). -/
def qmin : List ℚ → ℚ
  | [] => 0
  | x :: xs => xs.foldl min x

/-- Method `DataProcessor.calculate_mean`: validate data, column, dtype,
all-null; then average the non-null values. -/
def calculate_mean (s : DataProcessor) (column : String) : Except Err ℚ :=
  match s.data with
  | none => .error .noDataLoaded
  | some t =>
    match getCol t column with
    | none => .error (.columnNotFound column none)
    | some c =>
      if c.dtype.isNumeric then
        if c.cells.all (·.isNone) then .error (.allNull column)
        else
          let valid := (c.cells.filterMap id).map Value.toRat
          if valid.length = 0 then .error (.noValidValues column)
          else .ok (valid.sum / (valid.length : ℚ))
      else .error (.notNumeric column (s.columnTypes.lookup column))

/-- Method `DataProcessor.find_max`: same validation as `calculate_mean` (without
the redundant emptiness re-check), then the maximum of the non-null
values. -/
def find_max (s : DataProcessor) (column : String) : Except Err ℚ :=
  match s.data with
  | none => .error .noDataLoaded
  | some t =>
    match getCol t column with
    | none => .error (.columnNotFound column none)
    | some c =>
      if c.dtype.isNumeric then
        if c.cells.all (·.isNone) then .error (.allNull column)
        else .ok (qmax ((c.cells.filterMap id).map Value.toRat))
      else .error (.notNumeric column (s.columnTypes.lookup column))

/-- Per-column summary record.  `none` models a `NaN` statistic.  `stdSq`
is the square of the sample standard deviation (the square root of a
rational is not rational; no claim inspects the magnitude, and `NaN`-ness
is preserved: pandas `std` is `NaN` exactly when fewer than two non-null
values exist). -/
structure ColStats where
  mean : Option ℚ
  max : Option ℚ
  min : Option ℚ
  stdSq : Option ℚ
  count : Nat
  deriving DecidableEq, Repr

/-- Pandas `Series.mean()` with `skipna`: `NaN` on an empty reduction base. -/
def seriesMean (vals : List ℚ) : Option ℚ :=
  if vals.length = 0 then none else some (vals.sum / (vals.length : ℚ))

/-- Pandas `Series.max()` with `skipna`. -/
def seriesMax (vals : List ℚ) : Option ℚ :=
  if vals.length = 0 then none else some (qmax vals)

/-- Pandas `Series.min()` with `skipna`. -/
def seriesMin (vals : List ℚ) : Option ℚ :=
  if vals.length = 0 then none else some (qmin vals)

/-- Pandas `Series.std()` squared: sample variance (`ddof=1`), `NaN` when fewer
than two values. -/
def seriesStdSq (vals : List ℚ) : Option ℚ :=
  if vals.length ≤ 1 then none
  else
    let m := vals.sum / (vals.length : ℚ)
    some ((vals.map (fun x => (x - m) ^ 2)).sum / ((vals.length : ℚ) - 1))

/-- The summary record of one column: statistics over its non-null values,
and `count` = number of non-null values. -/
def colSummary (c : Column) : ColStats :=
  let vals := (c.cells.filterMap id).map Value.toRat
  ⟨seriesMean vals, seriesMax vals, seriesMin vals, seriesStdSq vals, vals.length⟩

/-- Method `DataProcessor.get_summary_stats`: for every numeric-dtype column, in
table order, its summary record; non-numeric columns are skipped and no
per-column validation is performed. -/
def get_summary_stats (s : DataProcessor) :
    Except Err (List (String × ColStats)) :=
  match s.data with
  | none => .error .noDataLoaded
  | some t =>
    .ok ((t.cols.filter (fun c => c.dtype.isNumeric)).map
      (fun c => (c.name, colSummary c)))

/-- The dtype cache is consistent with the loaded data: empty when nothing
is loaded, otherwise one entry per column, in order, with its current
dtype. -/
def cacheOK (s : DataProcessor) : Prop :=
  s.columnTypes = match s.data with
    | none => []
    | some t => typesOf t

/-! ## Supporting lemmas -/

theorem maskFilter_nil (l : List α) : maskFilter [] l = [] := by
  cases l <;> rfl

theorem maskFilter_map_self (p : α → Bool) :
    ∀ l : List α, maskFilter (l.map p) l = l.filter p := by
  intro l
  induction l with
  | nil => rfl
  | cons x xs ih =>
    cases h : p x <;> simp [maskFilter, List.filter_cons, h, ih]

theorem maskFilter_sublist :
    ∀ (bs : List Bool) (l : List α), List.Sublist (maskFilter bs l) l := by
  intro bs
  induction bs with
  | nil => intro l; rw [maskFilter_nil]; exact List.nil_sublist l
  | cons b bs ih =>
    intro l
    cases l with
    | nil => cases b <;> exact List.Sublist.refl []
    | cons x xs =>
      cases b with
      | true => exact List.Sublist.cons₂ x (ih xs)
      | false => exact List.Sublist.cons x (ih xs)

theorem find?_name_map (f : Column → Column) (hf : ∀ c, (f c).name = c.name)
    (col : String) :
    ∀ l : List Column,
      (l.map f).find? (fun c => c.name == col) =
        ((l.find? (fun c => c.name == col)).map f) := by
  intro l
  induction l with
  | nil => rfl
  | cons c cs ih =>
    by_cases h : c.name = col
    · simp [List.find?_cons, hf, h]
    · have hb : (c.name == col) = false := by simpa using h
      simp only [List.map_cons, List.find?_cons, hf, hb, ih]

theorem all_isNone_iff :
    ∀ l : List (Option α), (l.all (·.isNone) = true) ↔ l.filterMap id = [] := by
  intro l
  induction l with
  | nil => simp
  | cons x xs ih =>
    cases x with
    | none =>
      simp only [List.all_cons, List.filterMap_cons, Option.isNone_none,
        Bool.true_and, id]
      exact ih
    | some w => simp

theorem le_foldl_max (a : ℚ) : ∀ l : List ℚ, a ≤ l.foldl max a := by
  intro l
  induction l generalizing a with
  | nil => exact le_refl a
  | cons x xs ih => exact le_trans (le_max_left a x) (ih (max a x))

theorem le_foldl_max_of_mem (a : ℚ) :
    ∀ l : List ℚ, ∀ x ∈ l, x ≤ l.foldl max a := by
  intro l
  induction l generalizing a with
  | nil => intro x hx; exact absurd hx (List.not_mem_nil x)
  | cons y ys ih =>
    intro x hx
    rcases List.mem_cons.mp hx with h | h
    · subst h
      exact le_trans (le_max_right a x) (le_foldl_max (max a x) ys)
    · exact ih (max a y) x h

theorem foldl_max_mem (a : ℚ) :
    ∀ l : List ℚ, l.foldl max a = a ∨ l.foldl max a ∈ l := by
  intro l
  induction l generalizing a with
  | nil => exact Or.inl rfl
  | cons x xs ih =>
    rcases ih (max a x) with h | h
    · rcases max_choice a x with h' | h'
      · exact Or.inl (by rw [List.foldl_cons, h, h'])
      · exact Or.inr (by rw [List.foldl_cons, h, h']; exact List.mem_cons_self x xs)
    · exact Or.inr (List.mem_cons_of_mem x h)

theorem qmax_mem : ∀ l : List ℚ, l ≠ [] → qmax l ∈ l := by
  intro l hl
  cases l with
  | nil => exact absurd rfl hl
  | cons x xs =>
    rcases foldl_max_mem x xs with h | h
    · rw [qmax, h]; exact List.mem_cons_self x xs
    · rw [qmax]; exact List.mem_cons_of_mem x h

theorem le_qmax : ∀ l : List ℚ, ∀ x ∈ l, x ≤ qmax l := by
  intro l x hx
  cases l with
  | nil => exact absurd hx (List.not_mem_nil x)
  | cons y ys =>
    rcases List.mem_cons.mp hx with h | h
    · subst h; rw [qmax]; exact le_foldl_max x ys
    · rw [qmax]; exact le_foldl_max_of_mem y ys x h

theorem qmax_perm (l₁ l₂ : List ℚ) (hp : List.Perm l₁ l₂) (hne : l₁ ≠ []) :
    qmax l₁ = qmax l₂ := by
  have hne₂ : l₂ ≠ [] := fun h => hne (List.Perm.eq_nil (h ▸ hp))
  have h₁ : qmax l₁ ∈ l₂ := (List.Perm.mem_iff hp).mp (qmax_mem l₁ hne)
  have h₂ : qmax l₂ ∈ l₁ := (List.Perm.mem_iff hp).mpr (qmax_mem l₂ hne₂)
  exact le_antisymm (le_qmax l₂ _ h₁) (le_qmax l₁ _ h₂)

theorem zipAnd_nil (b : List Bool) : zipAnd [] b = [] := rfl

theorem foldl_zipAnd_nil (l : List Column) :
    l.foldl (fun m c => zipAnd m (c.cells.map Option.isSome)) [] = [] := by
  induction l with
  | nil => rfl
  | cons c cs ih => exact ih

theorem keepMask_of_rowCount_zero (t : Table) (h : t.rowCount = 0) :
    t.keepMask = [] := by
  rw [Table.keepMask, h, List.replicate]
  exact foldl_zipAnd_nil t.cols

theorem dropna_of_rowCount_zero (t : Table) (hwf : t.WF)
    (h : t.rowCount = 0) : t.dropna = t := by
  rw [Table.dropna, keepMask_of_rowCount_zero t h]
  have : ∀ c ∈ t.cols,
      ({ c with cells := maskFilter [] c.cells } : Column) = c := by
    intro c hc
    have hlen : c.cells.length = 0 := by rw [hwf c hc, h]
    have hcells : c.cells = [] := List.length_eq_zero.mp hlen
    cases c
    simp_all [maskFilter_nil]
  rw [List.map_congr_left this, List.map_id']

theorem typesOf_map_cells (t : Table) (g : Column → List (Option Value)) :
    typesOf ⟨t.cols.map (fun c => { c with cells := g c })⟩ = typesOf t := by
  simp [typesOf, List.map_map]

/-- Decidable equality of `Except` results, so that concrete runs of the
operations can be checked by evaluation. -/
instance {ε α : Type} [DecidableEq ε] [DecidableEq α] :
    DecidableEq (Except ε α) := fun x y =>
  match x, y with
  | .ok a, .ok b =>
    if h : a = b then .isTrue (congrArg Except.ok h)
    else .isFalse (fun hc => h (Except.ok.inj hc))
  | .error a, .error b =>
    if h : a = b then .isTrue (congrArg Except.error h)
    else .isFalse (fun hc => h (Except.error.inj hc))
  | .ok _, .error _ => .isFalse (fun hc => Except.noConfusion hc)
  | .error _, .ok _ => .isFalse (fun hc => Except.noConfusion hc)

/-! ## Concrete fixtures -/

/-- The test suite's `sample_dataframe`: five rows over an integer column,
a float column with one null, a string column with one null, and a second
integer column. -/
def sampleTable : Table := ⟨[
  ⟨"id", .integer,
    [some (.int 1), some (.int 2), some (.int 3), some (.int 4), some (.int 5)]⟩,
  ⟨"value", .float,
    [some (.float (21/2)), some (.float (203/10)), none,
     some (.float (407/10)), some (.float (501/10))]⟩,
  ⟨"category", .string,
    [some (.str "A"), some (.str "B"), some (.str "A"), none, some (.str "B")]⟩,
  ⟨"score", .integer,
    [some (.int 100), some (.int 200), some (.int 150), some (.int 300),
     some (.int 250)]⟩]⟩

/-- A processor that has loaded `sampleTable`. -/
def sampleProcessor : DataProcessor := ⟨some sampleTable, typesOf sampleTable⟩

/-- A loaded table with one float column and zero rows (e.g. a header-only
CSV, or a table whose rows were all filtered away). -/
def zeroRowTable : Table := ⟨[⟨"a", .float, []⟩]⟩

/-- A processor that has loaded `zeroRowTable`. -/
def zeroRowProcessor : DataProcessor := ⟨some zeroRowTable, typesOf zeroRowTable⟩

/-- A loaded table with one float column holding a single null row. -/
def oneNullRowTable : Table := ⟨[⟨"a", .float, [none]⟩]⟩

/-- A processor that has loaded `oneNullRowTable`. -/
def oneNullRowProcessor : DataProcessor :=
  ⟨some oneNullRowTable, typesOf oneNullRowTable⟩

/-- Python's numeric reading of a returned boolean (`True == 1`). -/
def pyBoolVal (b : Bool) : Nat := if b then 1 else 0

/-! ## Claims -/

/-- C1: the claim says `clean()` on a loaded table with zero rows succeeds
and returns 0, failing with `NoDataLoadedError` only when never loaded.
The second contract holds, but on a loaded zero-row table the source
raises `ZeroDivisionError`: the progress message divides the removed count
by the initial size.  The claim is right about the intent (the method's
documented contract is to return the row count) and the code is wrong on
this input. -/
theorem clean_on_zero_rows_raises_zero_division :
    zeroRowProcessor.data ≠ none ∧
    (clean_data zeroRowProcessor).2 = .error .zeroDivision ∧
    (clean_data initProcessor).2 = .error .noDataLoaded := by decide

/-- C2: the claim says `clean()` twice in a row succeeds both times with
equal counts.  When the first call leaves zero rows, the second call hits
the same zero-division slip as C1: on a one-null-row table the first
`clean` returns 0 and the second raises `ZeroDivisionError`. -/
theorem clean_twice_second_call_raises :
    (clean_data oneNullRowProcessor).2 = .ok 0 ∧
    (clean_data (clean_data oneNullRowProcessor).1).2 = .error .zeroDivision := by
  decide

/-- C3 counterexample: the claim says a successful `load` returns the row
count of the loaded data.  The source returns the constant `True`: on the
five-row sample input the returned value reads numerically as 1, not 5. -/
theorem load_returns_flag_not_rowcount_cex :
    (load_data initProcessor (.ok sampleTable)).2 = .ok true ∧
    sampleTable.rowCount = 5 ∧
    (∀ b, (load_data initProcessor (.ok sampleTable)).2 = .ok b →
      pyBoolVal b ≠ sampleTable.rowCount) := by decide

/-- C3 amended: for every input that `load` accepts successfully, it
returns `True` (a boolean success flag), stores the parsed table, and
recomputes the dtype cache; the row count is recorded in the stored table
but is not the return value. -/
theorem load_success_returns_true_and_records_data
    (s : DataProcessor) (t : Table) :
    load_data s (.ok t) =
      ({ data := some t, columnTypes := typesOf t }, .ok true) := rfl

/-- C4: after a successful `filter_by_value col v` the surviving cells of
`col` are exactly the stable filter of its cells by "non-null and equal to
`v`" (so every survivor matches, every removed cell was null or unequal,
and relative order is preserved); nulls never match; every column is
reduced by the same mask, order-preserved; and the returned value is the
resulting row count. -/
theorem filter_by_value_correct (s : DataProcessor) (t : Table)
    (col : String) (v : Value) (c : Column)
    (hd : s.data = some t) (hc : getCol t col = some c) :
    ∃ t' : Table,
      (filter_by_value s col v).1 = { s with data := some t' } ∧
      (filter_by_value s col v).2 = .ok t'.rowCount ∧
      t'.cols = t.cols.map
        (fun c0 => { c0 with
          cells := maskFilter (c.cells.map (cellMatches v)) c0.cells }) ∧
      getCol t' col = some { c with cells := c.cells.filter (cellMatches v) } ∧
      (∀ cell ∈ c.cells.filter (cellMatches v),
        ∃ w, cell = some w ∧ valueEq w v = true) ∧
      cellMatches v none = false ∧
      (∀ c0 ∈ t.cols,
        List.Sublist (maskFilter (c.cells.map (cellMatches v)) c0.cells)
          c0.cells) := by
  obtain ⟨sd, sct⟩ := s
  replace hd : sd = some t := hd
  subst hd
  refine ⟨⟨t.cols.map
      (fun c0 => { c0 with
        cells := maskFilter (c.cells.map (cellMatches v)) c0.cells })⟩,
    ?_, ?_, rfl, ?_, ?_, rfl, ?_⟩
  · simp [filter_by_value, hc]
  · simp [filter_by_value, hc]
  · simp only [getCol] at hc ⊢
    rw [find?_name_map
      (fun c0 => { c0 with
        cells := maskFilter (c.cells.map (cellMatches v)) c0.cells })
      (fun _ => rfl) col t.cols, hc]
    simp [maskFilter_map_self]
  · intro cell hmem
    have hp := List.of_mem_filter hmem
    cases cell with
    | none => simp [cellMatches] at hp
    | some w => exact ⟨w, rfl, hp⟩
  · intro c0 _
    exact maskFilter_sublist _ _

/-- The category column of the sample table. -/
def catColumn : Column :=
  ⟨"category", .string,
    [some (.str "A"), some (.str "B"), some (.str "A"), none, some (.str "B")]⟩

/-- C4 witness: filtering the sample table on category = "A". -/
theorem filter_by_value_correct_witness :
    ∃ t' : Table,
      (filter_by_value sampleProcessor "category" (.str "A")).1 =
        { sampleProcessor with data := some t' } ∧
      (filter_by_value sampleProcessor "category" (.str "A")).2 =
        .ok t'.rowCount :=
  Exists.imp (fun _ h => ⟨h.1, h.2.1⟩)
    (filter_by_value_correct sampleProcessor sampleTable "category" (.str "A")
      catColumn rfl rfl)

/-- Evaluation of `calculate_mean` on its success path: the result is the
sum of the non-null values divided by their number. -/
theorem exists_some_of_filterMap_ne (l : List (Option α))
    (h : l.filterMap id ≠ []) : ∃ x ∈ l, ¬x = none := by
  by_contra hcon
  push_neg at hcon
  apply h
  rw [← all_isNone_iff]
  simp only [List.all_eq_true]
  intro x hx
  simp [hcon x hx]

theorem calculate_mean_ok (s : DataProcessor) (t : Table) (col : String)
    (c : Column) (hd : s.data = some t) (hc : getCol t col = some c)
    (hn : c.dtype.isNumeric = true) (hne : c.cells.filterMap id ≠ []) :
    calculate_mean s col =
      .ok (((c.cells.filterMap id).map Value.toRat).sum /
        (((c.cells.filterMap id).map Value.toRat).length : ℚ)) := by
  obtain ⟨sd, sct⟩ := s
  replace hd : sd = some t := hd
  subst hd
  have hall : (c.cells.all (·.isNone)) = false :=
    Bool.eq_false_iff.mpr (fun h => hne ((all_isNone_iff c.cells).mp h))
  have hlen : ((c.cells.filterMap id).map Value.toRat).length ≠ 0 := by
    simpa [List.length_eq_zero] using hne
  simp [calculate_mean, hc, hn, hall, hlen]
  exact exists_some_of_filterMap_ne c.cells hne

/-- Evaluation of `find_max` on its success path: the result is the
maximum of the non-null values. -/
theorem find_max_ok (s : DataProcessor) (t : Table) (col : String)
    (c : Column) (hd : s.data = some t) (hc : getCol t col = some c)
    (hn : c.dtype.isNumeric = true) (hne : c.cells.filterMap id ≠ []) :
    find_max s col = .ok (qmax ((c.cells.filterMap id).map Value.toRat)) := by
  obtain ⟨sd, sct⟩ := s
  replace hd : sd = some t := hd
  subst hd
  have hall : (c.cells.all (·.isNone)) = false :=
    Bool.eq_false_iff.mpr (fun h => hne ((all_isNone_iff c.cells).mp h))
  simp [find_max, hc, hn, hall]

/-- C5: on a loaded table and numeric column with at least one non-null
value, `calculate_mean` returns the arithmetic mean of the non-null values
and `find_max` their maximum (an element of the values that bounds them
all); and both results are unchanged by any change of the column's cells
that keeps the multiset of non-null entries, in particular by inserting
null rows anywhere. -/
theorem mean_max_depend_only_on_nonnull_multiset
    (s₁ s₂ : DataProcessor) (t₁ t₂ : Table) (col₁ col₂ : String)
    (c₁ c₂ : Column)
    (hd₁ : s₁.data = some t₁) (hd₂ : s₂.data = some t₂)
    (hc₁ : getCol t₁ col₁ = some c₁) (hc₂ : getCol t₂ col₂ = some c₂)
    (hn₁ : c₁.dtype.isNumeric = true) (hn₂ : c₂.dtype.isNumeric = true)
    (hperm : List.Perm (c₁.cells.filterMap id) (c₂.cells.filterMap id))
    (hne : c₁.cells.filterMap id ≠ []) :
    calculate_mean s₁ col₁ =
      .ok (((c₁.cells.filterMap id).map Value.toRat).sum /
        (((c₁.cells.filterMap id).map Value.toRat).length : ℚ)) ∧
    find_max s₁ col₁ =
      .ok (qmax ((c₁.cells.filterMap id).map Value.toRat)) ∧
    qmax ((c₁.cells.filterMap id).map Value.toRat) ∈
      (c₁.cells.filterMap id).map Value.toRat ∧
    (∀ x ∈ (c₁.cells.filterMap id).map Value.toRat,
      x ≤ qmax ((c₁.cells.filterMap id).map Value.toRat)) ∧
    calculate_mean s₂ col₂ = calculate_mean s₁ col₁ ∧
    find_max s₂ col₂ = find_max s₁ col₁ := by
  have hne₂ : c₂.cells.filterMap id ≠ [] :=
    fun h => hne (List.Perm.eq_nil (h ▸ hperm))
  have hpm : List.Perm ((c₁.cells.filterMap id).map Value.toRat)
      ((c₂.cells.filterMap id).map Value.toRat) := hperm.map Value.toRat
  have hm₁ := calculate_mean_ok s₁ t₁ col₁ c₁ hd₁ hc₁ hn₁ hne
  have hm₂ := calculate_mean_ok s₂ t₂ col₂ c₂ hd₂ hc₂ hn₂ hne₂
  have hx₁ := find_max_ok s₁ t₁ col₁ c₁ hd₁ hc₁ hn₁ hne
  have hx₂ := find_max_ok s₂ t₂ col₂ c₂ hd₂ hc₂ hn₂ hne₂
  have hmapne : (c₁.cells.filterMap id).map Value.toRat ≠ [] := by
    simpa using hne
  refine ⟨hm₁, hx₁, qmax_mem _ hmapne, le_qmax _, ?_, ?_⟩
  · rw [hm₂, hm₁]
    congr 1
    rw [← hpm.sum_eq, ← hpm.length_eq]
  · rw [hx₂, hx₁]
    congr 1
    exact (qmax_perm _ _ hpm hmapne).symm

/-- A one-column numeric table with values 1 and 3. -/
def permTable₁ : Table := ⟨[⟨"v", .float, [some (.float 1), some (.float 3)]⟩]⟩

/-- The same non-null values permuted, with two null rows inserted. -/
def permTable₂ : Table :=
  ⟨[⟨"v", .float, [none, some (.float 3), none, some (.float 1)]⟩]⟩

/-- A processor that has loaded `permTable₁`. -/
def permProcessor₁ : DataProcessor := ⟨some permTable₁, typesOf permTable₁⟩

/-- A processor that has loaded `permTable₂`. -/
def permProcessor₂ : DataProcessor := ⟨some permTable₂, typesOf permTable₂⟩

/-- C5 witness: inserting null rows and permuting leaves mean and max
unchanged; on values {1, 3} the mean is 2 and the max is 3. -/
theorem mean_max_nonnull_witness :
    calculate_mean permProcessor₂ "v" = calculate_mean permProcessor₁ "v" ∧
    find_max permProcessor₂ "v" = find_max permProcessor₁ "v" ∧
    calculate_mean permProcessor₁ "v" = .ok 2 ∧
    find_max permProcessor₁ "v" = .ok 3 := by
  have h := mean_max_depend_only_on_nonnull_multiset
    permProcessor₁ permProcessor₂ permTable₁ permTable₂ "v" "v"
    ⟨"v", .float, [some (.float 1), some (.float 3)]⟩
    ⟨"v", .float, [none, some (.float 3), none, some (.float 1)]⟩
    rfl rfl rfl rfl rfl rfl (by decide) (by decide)
  refine ⟨h.2.2.2.2.1, h.2.2.2.2.2, ?_, ?_⟩
  · rw [h.1]
    congr 1
    norm_num [List.filterMap_cons, Value.toRat]
  · rw [h.2.1]
    congr 1

/-- C6: on a loaded table and a column of numeric dtype, `calculate_mean`
and `find_max` fail with the all-null error exactly when every cell of the
column is null (in particular on a zero-row column, where the emptiness is
vacuous); otherwise they return a numeric result. -/
theorem all_null_error_iff (s : DataProcessor) (t : Table) (col : String)
    (c : Column) (hd : s.data = some t) (hc : getCol t col = some c)
    (hn : c.dtype.isNumeric = true) :
    (calculate_mean s col = .error (.allNull col) ↔
      c.cells.all (·.isNone) = true) ∧
    (find_max s col = .error (.allNull col) ↔
      c.cells.all (·.isNone) = true) := by
  obtain ⟨sd, sct⟩ := s
  replace hd : sd = some t := hd
  subst hd
  rcases h : c.cells.all (·.isNone) with _ | _
  · have hne : c.cells.filterMap id ≠ [] := by
      intro h0
      have := (all_isNone_iff c.cells).mpr h0
      simp [h] at this
    constructor
    · rw [calculate_mean_ok ⟨some t, sct⟩ t col c rfl hc hn hne]
      simp
    · rw [find_max_ok ⟨some t, sct⟩ t col c rfl hc hn hne]
      simp
  · constructor
    · simp [calculate_mean, hc, hn, h]
    · simp [find_max, hc, hn, h]

/-- C6 witness: the degenerate zero-row numeric column raises the all-null
error from both reductions. -/
theorem all_null_error_iff_witness :
    calculate_mean zeroRowProcessor "a" = .error (.allNull "a") ∧
    find_max zeroRowProcessor "a" = .error (.allNull "a") := by
  have h := all_null_error_iff zeroRowProcessor zeroRowTable "a"
    ⟨"a", .float, []⟩ rfl rfl rfl
  exact ⟨h.1.mpr rfl, h.2.mpr rfl⟩

/-- C7: `get_summary_stats` fails only with the no-data error, exactly
when the table is unloaded; on any loaded table it succeeds, its keys are
exactly the numeric-dtype column names in order (non-numeric columns are
silently excluded), and a fully-null numeric column still contributes an
entry whose statistics are all `NaN` (modelled `none`) with count 0. -/
theorem get_summary_stats_total_on_loaded (s : DataProcessor) :
    (s.data = none → get_summary_stats s = .error .noDataLoaded) ∧
    (∀ e, get_summary_stats s = .error e →
      s.data = none ∧ e = .noDataLoaded) ∧
    (∀ t, s.data = some t → ∃ m, get_summary_stats s = .ok m ∧
      m.map Prod.fst =
        (t.cols.filter (fun c => c.dtype.isNumeric)).map Column.name ∧
      ∀ c ∈ t.cols, c.dtype.isNumeric = true →
        c.cells.all (·.isNone) = true →
          (c.name, (⟨none, none, none, none, 0⟩ : ColStats)) ∈ m) := by
  obtain ⟨sd, sct⟩ := s
  refine ⟨?_, ?_, ?_⟩
  · intro h
    replace h : sd = none := h
    subst h
    rfl
  · intro e he
    cases sd with
    | none => exact ⟨rfl, (Except.error.inj he).symm⟩
    | some t => simp [get_summary_stats] at he
  · intro t ht
    replace ht : sd = some t := ht
    subst ht
    refine ⟨_, rfl, ?_, ?_⟩
    · simp [get_summary_stats, List.map_map]
    · intro c hc hnum hall
      have hcf : c ∈ t.cols.filter (fun c => c.dtype.isNumeric) :=
        List.mem_filter.mpr ⟨hc, hnum⟩
      have hcs : colSummary c = ⟨none, none, none, none, 0⟩ := by
        have hv : c.cells.filterMap id = [] := (all_isNone_iff c.cells).mp hall
        simp [colSummary, hv, seriesMean, seriesMax, seriesMin, seriesStdSq]
      have hm := List.mem_map_of_mem (fun c => (c.name, colSummary c)) hcf
      simpa [hcs] using hm

/-- C7 witness: on the loaded zero-row float column the summary succeeds,
lists the numeric column, and reports all-`NaN` statistics for it. -/
theorem get_summary_stats_witness :
    ∃ m, get_summary_stats zeroRowProcessor = .ok m ∧
      m.map Prod.fst = ["a"] ∧
      ("a", (⟨none, none, none, none, 0⟩ : ColStats)) ∈ m := by
  obtain ⟨m, h1, h2, h3⟩ :=
    (get_summary_stats_total_on_loaded zeroRowProcessor).2.2 zeroRowTable rfl
  refine ⟨m, h1, ?_, h3 ⟨"a", .float, []⟩ (by decide) rfl rfl⟩
  rw [h2]
  rfl

/-- C8 counterexample: the claim says every column-name-taking operation's
`ColumnNotFoundError` carries the available column names.  On the sample
table, `calculate_mean` of a missing column raises the error *without*
the available columns (the message names only the column), so the claim
fails for `calculate_mean` (and likewise `find_max`). -/
theorem mean_column_not_found_lacks_available_cex :
    calculate_mean sampleProcessor "missing" =
      .error (.columnNotFound "missing" none) ∧
    calculate_mean sampleProcessor "missing" ≠
      .error (.columnNotFound "missing"
        (some ["id", "value", "category", "score"])) := by decide

/-- C8 amended: on a loaded table and an absent column, all three
operations fail with `ColumnNotFoundError`, but only `filter_by_value`'s
error carries the list of available column names; `calculate_mean` and
`find_max` report the column name alone. -/
theorem column_not_found_payloads (s : DataProcessor) (t : Table)
    (col : String) (v : Value) (hd : s.data = some t)
    (hc : getCol t col = none) :
    (filter_by_value s col v).2 =
      .error (.columnNotFound col (some t.colNames)) ∧
    calculate_mean s col = .error (.columnNotFound col none) ∧
    find_max s col = .error (.columnNotFound col none) := by
  obtain ⟨sd, sct⟩ := s
  replace hd : sd = some t := hd
  subst hd
  refine ⟨?_, ?_, ?_⟩
  · simp [filter_by_value, hc]
  · simp [calculate_mean, hc]
  · simp [find_max, hc]

/-- C8 amended witness: the sample table with a missing column. -/
theorem column_not_found_payloads_witness :
    (filter_by_value sampleProcessor "missing" (.int 0)).2 =
      .error (.columnNotFound "missing"
        (some ["id", "value", "category", "score"])) ∧
    find_max sampleProcessor "missing" =
      .error (.columnNotFound "missing" none) := by
  have h := column_not_found_payloads sampleProcessor sampleTable "missing"
    (.int 0) rfl (by decide)
  exact ⟨h.1, h.2.2⟩

/-- C9: whenever `clean_data` or `filter_by_value` fails with any error,
the processor state (table contents and dtype cache) is exactly what it
was before the call.  For `clean_data` on a well-formed zero-row table the
reassignment `self.data = self.data.dropna()` that precedes the failing
progress message is content-preserving, so the state is unchanged there
too. -/
theorem errors_leave_table_unchanged (s : DataProcessor)
    (hwf : ∀ t, s.data = some t → t.WF) :
    (∀ e, (clean_data s).2 = .error e → (clean_data s).1 = s) ∧
    (∀ col v e, (filter_by_value s col v).2 = .error e →
      (filter_by_value s col v).1 = s) := by
  obtain ⟨sd, sct⟩ := s
  constructor
  · intro e he
    cases sd with
    | none => rfl
    | some t =>
      have hwt : t.WF := hwf t rfl
      by_cases h0 : t.rowCount = 0
      · have hdr : t.dropna = t := dropna_of_rowCount_zero t hwt h0
        simp [clean_data, h0, hdr]
      · exfalso
        simp [clean_data, h0] at he
  · intro col v e he
    cases sd with
    | none => rfl
    | some t =>
      cases hc : getCol t col with
      | none => simp [filter_by_value, hc]
      | some c =>
        exfalso
        simp [filter_by_value, hc] at he

/-- C9 witness: the never-loaded processor is left untouched by the
failing calls. -/
theorem errors_leave_table_unchanged_witness :
    (clean_data initProcessor).1 = initProcessor ∧
    (filter_by_value initProcessor "x" (.int 0)).1 = initProcessor := by
  have h := errors_leave_table_unchanged initProcessor (fun _ h => nomatch h)
  exact ⟨h.1 .noDataLoaded rfl, h.2 "x" (.int 0) .noDataLoaded rfl⟩

/-- C10: the dtype cache is consistent with the loaded data: it is empty
on a fresh processor, and after every successful `load_data`, `clean_data`
or `filter_by_value` it maps exactly the current column names, in order,
to their current dtypes (`filter_by_value` does not recompute the cache
but never changes a column's dtype, so consistency is preserved). -/
theorem column_type_cache_consistent :
    cacheOK initProcessor ∧
    (∀ s src r b, load_data s src = (r, .ok b) → cacheOK r) ∧
    (∀ s r n, clean_data s = (r, .ok n) → cacheOK r) ∧
    (∀ s, cacheOK s → ∀ col v r n,
      filter_by_value s col v = (r, .ok n) → cacheOK r) := by
  refine ⟨rfl, ?_, ?_, ?_⟩
  · intro s src r b h
    cases src with
    | ok t =>
      have h1 : (load_data s (.ok t)).1 = r := congrArg Prod.fst h
      rw [← h1]
      rfl
    | fileNotFound p => exact Except.noConfusion (congrArg Prod.snd h)
    | emptyData => exact Except.noConfusion (congrArg Prod.snd h)
    | otherError m => exact Except.noConfusion (congrArg Prod.snd h)
  · intro s r n h
    obtain ⟨sd, sct⟩ := s
    cases sd with
    | none => exact Except.noConfusion (congrArg Prod.snd h)
    | some t =>
      by_cases h0 : t.rowCount = 0
      · simp [clean_data, h0] at h
      · have h1 : (clean_data ⟨some t, sct⟩).1 = r := congrArg Prod.fst h
        rw [← h1]
        simp [clean_data, h0, cacheOK, precomputeColumnTypes]
  · intro s hs col v r n h
    obtain ⟨sd, sct⟩ := s
    cases sd with
    | none => exact Except.noConfusion (congrArg Prod.snd h)
    | some t =>
      cases hc : getCol t col with
      | none => simp [filter_by_value, hc] at h
      | some c =>
        have h1 : (filter_by_value ⟨some t, sct⟩ col v).1 = r :=
          congrArg Prod.fst h
        simp only [filter_by_value, hc] at h1
        rw [← h1]
        have hs' : sct = typesOf t := hs
        rw [cacheOK]
        exact hs'.trans (typesOf_map_cells t _).symm

/-- A loaded integer table with one null row, for concrete cache runs. -/
def intTable : Table :=
  ⟨[⟨"n", .integer, [some (.int 1), none, some (.int 2)]⟩]⟩

/-- A processor that has loaded `intTable`. -/
def intProcessor : DataProcessor := ⟨some intTable, typesOf intTable⟩

/-- C10 witness: the cache stays consistent across a concrete successful
clean and a concrete successful filter. -/
theorem column_type_cache_consistent_witness :
    cacheOK (clean_data intProcessor).1 ∧
    cacheOK (filter_by_value intProcessor "n" (.int 2)).1 := by
  constructor
  · exact column_type_cache_consistent.2.2.1 intProcessor
      (clean_data intProcessor).1 2 (by decide)
  · exact column_type_cache_consistent.2.2.2 intProcessor rfl "n" (.int 2)
      (filter_by_value intProcessor "n" (.int 2)).1 1 (by decide)

end DataProc
